import Mathlib

/-!
Verification of `docs/conf.py`, the Sphinx configuration script of the
opendxl-client-java repository.

The script is a linear sequence of module-level assignments.  Its only
effects are one file read (the `with open('../VERSION', 'r')` block whose
body assigns `content_file.read()` to `VERSION`) and one
environment-variable lookup (`os.getenv('plantuml')`).  We embed it as a
list of assignment statements interpreted over a module state (an
association list from variable names to Python values), parameterised by
the file system and the process environment, both modelled as functions
from a path or variable name to the optional text found there.  The
interpreter returns the final state, or the uncaught error that
terminated execution, together with the trace of I/O effects performed,
in order.
-/

namespace ConfPy

/-- Python values occurring in `conf.py`: strings, booleans, `None`,
lists of strings, and class references (`CommonMarkParser`). -/
inductive PyVal where
  | vstr : String → PyVal
  | vbool : Bool → PyVal
  | vnone : PyVal
  | vstrList : List String → PyVal
  | vclass : String → PyVal
deriving DecidableEq, Repr

/-- Top-level values: a base value or a dictionary with string keys
(`source_parsers` maps `'.md'` to a class; `html_context` maps
`'css_files'` to a list of strings). -/
inductive Value where
  | base : PyVal → Value
  | vdict : List (String × PyVal) → Value
deriving DecidableEq, Repr

/-- The module-level variable names `conf.py` assigns, one constructor
per identifier appearing on the left of an `=` in the script. -/
inductive Name where
  | project
  | copyright
  | VERSION
  | version
  | release
  | needs_sphinx
  | master_doc
  | pygments_style
  | add_function_parentheses
  | extensions
  | templates_path
  | exclude_trees
  | source_suffix
  | source_encoding
  | source_parsers
  | html_theme
  | html_short_title
  | htmlhelp_basename
  | html_use_index
  | html_show_sourcelink
  | html_static_path
  | plantuml
  | html_context
deriving DecidableEq, Repr

/-- Right-hand sides of the script's assignments: literals, a variable
reference, the read of a file's whole content, or `os.getenv`. -/
inductive Expr where
  | lit : Value → Expr
  | var : Name → Expr
  | readFile : String → Expr
  | getenv : String → Expr
deriving DecidableEq, Repr

/-- The script's statements are all simple assignments `name = expr`.
The `with open('../VERSION', 'r')` block is the assignment of
`readFile` to `VERSION`. -/
inductive Stmt where
  | assign : Name → Expr → Stmt
deriving DecidableEq, Repr

/-- Uncaught Python errors the embedded statements can raise: the read
of a missing file, and the reference to an unbound variable. -/
inductive Err where
  | fileNotFound : String → Err
  | nameError : Name → Err
deriving DecidableEq, Repr

/-- I/O effects, recorded in order of occurrence.  A file read is
recorded even when it fails, since the `open` call is attempted. -/
inductive Effect where
  | readFile : String → Effect
  | getenv : String → Effect
deriving DecidableEq, Repr

/-- The module state: variable bindings in order of first assignment. -/
abbrev State := List (Name × Value)

/-- Look a variable up in the module state. -/
def lookupVar : State → Name → Option Value
  | [], _ => none
  | (y, v) :: st, x => if x = y then some v else lookupVar st x

/-- Assign a variable: replace its binding in place when it exists,
otherwise append a new binding. -/
def setVar : State → Name → Value → State
  | [], x, v => [(x, v)]
  | (y, w) :: st, x, v =>
      if x = y then (y, v) :: st else (y, w) :: setVar st x v

/-- The value `os.getenv` yields: the variable's string value, or `None`
when the variable is absent from the environment. -/
def pyOptStr : Option String → Value
  | some s => .base (.vstr s)
  | none => .base .vnone

/-- Evaluate an expression under file system `fs` and environment `env`,
returning the value (or error) and the I/O effects performed. -/
def evalExpr (fs env : String → Option String) (st : State) :
    Expr → Except Err Value × List Effect
  | .lit v => (.ok v, [])
  | .var x =>
      match lookupVar st x with
      | some v => (.ok v, [])
      | none => (.error (.nameError x), [])
  | .readFile p =>
      match fs p with
      | some s => (.ok (.base (.vstr s)), [.readFile p])
      | none => (.error (.fileNotFound p), [.readFile p])
  | .getenv n => (.ok (pyOptStr (env n)), [.getenv n])

/-- Run statements in order, accumulating the effect trace.  An error
stops execution at once — no handler exists anywhere in the script —
keeping the effects performed up to and including the failing
expression. -/
def runStmts (fs env : String → Option String) :
    List Stmt → State → List Effect → Except Err State × List Effect
  | [], st, acc => (.ok st, acc)
  | .assign x e :: rest, st, acc =>
      match evalExpr fs env st e with
      | (.error er, tr) => (.error er, acc ++ tr)
      | (.ok v, tr) => runStmts fs env rest (setVar st x v) (acc ++ tr)

/-- `docs/conf.py`, statement by statement, in source order.  The two
`import` lines bind no configuration variable and perform no effect the
configuration observes, so they contribute no statement. -/
def conf_py : List Stmt :=
  [ .assign .project (.lit (.base (.vstr "OpenDXL Java SDK")))
  , .assign .copyright (.lit (.base (.vstr "2019, McAfee LLC")))
  , .assign .VERSION (.readFile "../VERSION")
  , .assign .version (.var .VERSION)
  , .assign .release (.var .VERSION)
  , .assign .needs_sphinx (.lit (.base (.vstr "1.0")))
  , .assign .master_doc (.lit (.base (.vstr "index")))
  , .assign .pygments_style (.lit (.base (.vstr "tango")))
  , .assign .add_function_parentheses (.lit (.base (.vbool true)))
  , .assign .extensions (.lit (.base (.vstrList
      ["sphinx.ext.autodoc", "javasphinx", "sphinxcontrib.plantuml"])))
  , .assign .templates_path (.lit (.base (.vstrList ["_templates"])))
  , .assign .exclude_trees (.lit (.base (.vstrList [".build"])))
  , .assign .source_suffix (.lit (.base (.vstrList [".rst", ".md"])))
  , .assign .source_encoding (.lit (.base (.vstr "utf-8-sig")))
  , .assign .source_parsers (.lit (.vdict [(".md", .vclass "CommonMarkParser")]))
  , .assign .html_theme (.lit (.base (.vstr "sphinx_rtd_theme")))
  , .assign .html_short_title (.lit (.base (.vstr "my-project")))
  , .assign .htmlhelp_basename (.lit (.base (.vstr "my-project-doc")))
  , .assign .html_use_index (.lit (.base (.vbool true)))
  , .assign .html_show_sourcelink (.lit (.base (.vbool false)))
  , .assign .html_static_path (.lit (.base (.vstrList ["_static"])))
  , .assign .plantuml (.getenv "plantuml")
  , .assign .html_static_path (.lit (.base (.vstrList ["_static"])))
  , .assign .html_context (.lit (.vdict
      [("css_files", .vstrList ["_static/theme_overrides.css"])]))
  ]

/-- One complete execution of the script, from the empty module state
and the empty effect trace. -/
def run (fs env : String → Option String) : Except Err State × List Effect :=
  runStmts fs env conf_py [] []

/-! ### Segments of the script, used to stage the execution proofs -/

/-- Statements 1–2: `project`, `copyright`. -/
def segA : List Stmt :=
  [ .assign .project (.lit (.base (.vstr "OpenDXL Java SDK")))
  , .assign .copyright (.lit (.base (.vstr "2019, McAfee LLC"))) ]

/-- Statement 3: the read of `../VERSION`. -/
def segB : List Stmt := [.assign .VERSION (.readFile "../VERSION")]

/-- Statements 4–5: `version`, `release`. -/
def segC : List Stmt :=
  [ .assign .version (.var .VERSION)
  , .assign .release (.var .VERSION) ]

/-- Statements 6–10. -/
def segD : List Stmt :=
  [ .assign .needs_sphinx (.lit (.base (.vstr "1.0")))
  , .assign .master_doc (.lit (.base (.vstr "index")))
  , .assign .pygments_style (.lit (.base (.vstr "tango")))
  , .assign .add_function_parentheses (.lit (.base (.vbool true)))
  , .assign .extensions (.lit (.base (.vstrList
      ["sphinx.ext.autodoc", "javasphinx", "sphinxcontrib.plantuml"]))) ]

/-- Statements 11–15. -/
def segE : List Stmt :=
  [ .assign .templates_path (.lit (.base (.vstrList ["_templates"])))
  , .assign .exclude_trees (.lit (.base (.vstrList [".build"])))
  , .assign .source_suffix (.lit (.base (.vstrList [".rst", ".md"])))
  , .assign .source_encoding (.lit (.base (.vstr "utf-8-sig")))
  , .assign .source_parsers (.lit (.vdict [(".md", .vclass "CommonMarkParser")])) ]

/-- Statements 16–20. -/
def segF : List Stmt :=
  [ .assign .html_theme (.lit (.base (.vstr "sphinx_rtd_theme")))
  , .assign .html_short_title (.lit (.base (.vstr "my-project")))
  , .assign .htmlhelp_basename (.lit (.base (.vstr "my-project-doc")))
  , .assign .html_use_index (.lit (.base (.vbool true)))
  , .assign .html_show_sourcelink (.lit (.base (.vbool false))) ]

/-- Statements 21–24, containing the environment lookup and the repeated
`html_static_path` assignment. -/
def segG : List Stmt :=
  [ .assign .html_static_path (.lit (.base (.vstrList ["_static"])))
  , .assign .plantuml (.getenv "plantuml")
  , .assign .html_static_path (.lit (.base (.vstrList ["_static"])))
  , .assign .html_context (.lit (.vdict
      [("css_files", .vstrList ["_static/theme_overrides.css"])])) ]

theorem conf_py_eq :
    conf_py = segA ++ (segB ++ (segC ++ (segD ++ (segE ++ (segF ++ segG))))) := rfl

/-! ### Intermediate module states -/

/-- The state after statements 1–2. -/
def st02 : State :=
  [ (.project, .base (.vstr "OpenDXL Java SDK"))
  , (.copyright, .base (.vstr "2019, McAfee LLC")) ]

/-- The state after statement 3, when `../VERSION` holds `s`. -/
def st03 (s : String) : State :=
  st02 ++ [(.VERSION, .base (.vstr s))]

/-- The state after statement 5. -/
def st05 (s : String) : State :=
  st03 s ++ [ (.version, .base (.vstr s)), (.release, .base (.vstr s)) ]

/-- The state after statement 10. -/
def st10 (s : String) : State :=
  st05 s ++
  [ (.needs_sphinx, .base (.vstr "1.0"))
  , (.master_doc, .base (.vstr "index"))
  , (.pygments_style, .base (.vstr "tango"))
  , (.add_function_parentheses, .base (.vbool true))
  , (.extensions, .base (.vstrList
      ["sphinx.ext.autodoc", "javasphinx", "sphinxcontrib.plantuml"])) ]

/-- The state after statement 15. -/
def st15 (s : String) : State :=
  st10 s ++
  [ (.templates_path, .base (.vstrList ["_templates"]))
  , (.exclude_trees, .base (.vstrList [".build"]))
  , (.source_suffix, .base (.vstrList [".rst", ".md"]))
  , (.source_encoding, .base (.vstr "utf-8-sig"))
  , (.source_parsers, .vdict [(".md", .vclass "CommonMarkParser")]) ]

/-- The state after statement 20. -/
def st20 (s : String) : State :=
  st15 s ++
  [ (.html_theme, .base (.vstr "sphinx_rtd_theme"))
  , (.html_short_title, .base (.vstr "my-project"))
  , (.htmlhelp_basename, .base (.vstr "my-project-doc"))
  , (.html_use_index, .base (.vbool true))
  , (.html_show_sourcelink, .base (.vbool false)) ]

/-- The final module state when `../VERSION` holds `s` and the
environment variable `plantuml` holds `p` (absent when `p = none`). -/
def finalState (s : String) (p : Option String) : State :=
  st20 s ++
  [ (.html_static_path, .base (.vstrList ["_static"]))
  , (.plantuml, pyOptStr p)
  , (.html_context, .vdict [("css_files", .vstrList ["_static/theme_overrides.css"])]) ]

/-! ### Composition lemmas for the interpreter -/

/-- Running a concatenation of statement lists: when the first part
succeeds, the second continues from its state and trace. -/
theorem runStmts_append_ok {fs env : String → Option String} :
    ∀ {l1 : List Stmt} {st st1 : State} {acc acc1 : List Effect},
      runStmts fs env l1 st acc = (.ok st1, acc1) →
      ∀ l2 : List Stmt,
        runStmts fs env (l1 ++ l2) st acc = runStmts fs env l2 st1 acc1 := by
  intro l1
  induction l1 with
  | nil =>
      intro st st1 acc acc1 h l2
      simp only [runStmts] at h
      injection h with h1 h2
      injection h1 with h1
      subst h1; subst h2
      simp only [List.nil_append]
  | cons hd tl ih =>
      intro st st1 acc acc1 h l2
      obtain ⟨x, e⟩ := hd
      rcases he : evalExpr fs env st e with ⟨r, tr⟩
      cases r with
      | error er =>
          simp only [runStmts, he] at h
          exact absurd h (by simp)
      | ok v =>
          rw [List.cons_append]
          simp only [runStmts, he] at h ⊢
          exact ih h l2

/-- Running a concatenation of statement lists: an error in the first
part is the result of the whole, with the trace accumulated so far. -/
theorem runStmts_append_err {fs env : String → Option String} :
    ∀ {l1 : List Stmt} {st : State} {acc acc1 : List Effect} {er : Err},
      runStmts fs env l1 st acc = (.error er, acc1) →
      ∀ l2 : List Stmt,
        runStmts fs env (l1 ++ l2) st acc = (.error er, acc1) := by
  intro l1
  induction l1 with
  | nil =>
      intro st acc acc1 er h l2
      simp only [runStmts] at h
      exact absurd h (by simp)
  | cons hd tl ih =>
      intro st acc acc1 er h l2
      obtain ⟨x, e⟩ := hd
      rcases he : evalExpr fs env st e with ⟨r, tr⟩
      cases r with
      | error er2 =>
          rw [List.cons_append]
          simp only [runStmts, he] at h ⊢
          exact h
      | ok v =>
          rw [List.cons_append]
          simp only [runStmts, he] at h ⊢
          exact ih h l2

/-- A successful file read, seen through one interpreter step. -/
theorem runStmts_read_ok {fs env : String → Option String} {p s : String}
    (h : fs p = some s) (x : Name) (rest : List Stmt) (st : State)
    (acc : List Effect) :
    runStmts fs env (.assign x (.readFile p) :: rest) st acc =
      runStmts fs env rest (setVar st x (.base (.vstr s))) (acc ++ [.readFile p]) := by
  simp only [runStmts, evalExpr, h]

/-- A failed file read, seen through one interpreter step. -/
theorem runStmts_read_err {fs env : String → Option String} {p : String}
    (h : fs p = none) (x : Name) (rest : List Stmt) (st : State)
    (acc : List Effect) :
    runStmts fs env (.assign x (.readFile p) :: rest) st acc =
      (.error (.fileNotFound p), acc ++ [.readFile p]) := by
  simp only [runStmts, evalExpr, h]

/-! ### The two master lemmas: the script's full behaviour -/

/-- When the version file is present with content `s`, execution
succeeds, the final state is `finalState s (env "plantuml")`, and the
effect trace is exactly the file read followed by the environment
lookup. -/
theorem run_ok (fs env : String → Option String) (s : String)
    (h : fs "../VERSION" = some s) :
    run fs env =
      (.ok (finalState s (env "plantuml")),
       [.readFile "../VERSION", .getenv "plantuml"]) := by
  have hA : runStmts fs env segA [] [] = (.ok st02, []) := rfl
  have hB : runStmts fs env segB st02 [] =
      (.ok (st03 s), [.readFile "../VERSION"]) := by
    rw [show segB = .assign .VERSION (.readFile "../VERSION") :: [] from rfl,
      runStmts_read_ok h]
    rfl
  have hC : runStmts fs env segC (st03 s) [.readFile "../VERSION"] =
      (.ok (st05 s), [.readFile "../VERSION"]) := rfl
  have hD : runStmts fs env segD (st05 s) [.readFile "../VERSION"] =
      (.ok (st10 s), [.readFile "../VERSION"]) := rfl
  have hE : runStmts fs env segE (st10 s) [.readFile "../VERSION"] =
      (.ok (st15 s), [.readFile "../VERSION"]) := rfl
  have hF : runStmts fs env segF (st15 s) [.readFile "../VERSION"] =
      (.ok (st20 s), [.readFile "../VERSION"]) := rfl
  have hG : runStmts fs env segG (st20 s) [.readFile "../VERSION"] =
      (.ok (finalState s (env "plantuml")),
       [.readFile "../VERSION", .getenv "plantuml"]) := rfl
  rw [run, conf_py_eq, runStmts_append_ok hA, runStmts_append_ok hB,
    runStmts_append_ok hC, runStmts_append_ok hD, runStmts_append_ok hE,
    runStmts_append_ok hF]
  exact hG

/-- When the version file is absent, execution dies on the file read
with a file-not-found error, having performed only that read. -/
theorem run_err (fs env : String → Option String)
    (h : fs "../VERSION" = none) :
    run fs env =
      (.error (.fileNotFound "../VERSION"), [.readFile "../VERSION"]) := by
  have hA : runStmts fs env segA [] [] = (.ok st02, []) := rfl
  have hB : runStmts fs env (segB ++ (segC ++ (segD ++ (segE ++ (segF ++ segG)))))
      st02 [] = (.error (.fileNotFound "../VERSION"), [.readFile "../VERSION"]) := by
    rw [show segB ++ (segC ++ (segD ++ (segE ++ (segF ++ segG)))) =
      .assign .VERSION (.readFile "../VERSION") ::
        (segC ++ (segD ++ (segE ++ (segF ++ segG)))) from rfl,
      runStmts_read_err h]
    rfl
  rw [run, conf_py_eq, runStmts_append_ok hA]
  exact hB

/-! ### Constancy of the module-level bindings -/

/-- Does every assignment along the execution of the statements find
its target either unbound or already bound to an equal value?  Checked
only up to the point where execution stops on an error, since nothing
runs past it. -/
def constAssign (fs env : String → Option String) : List Stmt → State → Bool
  | [], _ => true
  | .assign x e :: rest, st =>
      match evalExpr fs env st e with
      | (.error _, _) => true
      | (.ok v, _) =>
          (match lookupVar st x with
           | none => true
           | some w => decide (w = v)) && constAssign fs env rest (setVar st x v)

/-- `constAssign` over a concatenation whose first part succeeds splits
into the two parts, the second starting from the intermediate state. -/
theorem constAssign_append {fs env : String → Option String} :
    ∀ {l1 : List Stmt} {st st1 : State} {acc acc1 : List Effect},
      runStmts fs env l1 st acc = (.ok st1, acc1) →
      ∀ l2 : List Stmt,
        constAssign fs env (l1 ++ l2) st =
          (constAssign fs env l1 st && constAssign fs env l2 st1) := by
  intro l1
  induction l1 with
  | nil =>
      intro st st1 acc acc1 h l2
      simp only [runStmts] at h
      injection h with h1 h2
      injection h1 with h1
      subst h1
      simp [constAssign]
  | cons hd tl ih =>
      intro st st1 acc acc1 h l2
      obtain ⟨x, e⟩ := hd
      rcases he : evalExpr fs env st e with ⟨r, tr⟩
      cases r with
      | error er =>
          simp only [runStmts, he] at h
          exact absurd h (by simp)
      | ok v =>
          simp only [runStmts, he] at h
          rw [List.cons_append]
          simp only [constAssign, he]
          rw [ih h l2, Bool.and_assoc]

/-- `constAssign` across a successful file read. -/
theorem constAssign_read_ok {fs env : String → Option String} {p s : String}
    (h : fs p = some s) (x : Name) (rest : List Stmt) (st : State) :
    constAssign fs env (.assign x (.readFile p) :: rest) st =
      ((match lookupVar st x with
        | none => true
        | some w => decide (w = .base (.vstr s))) &&
       constAssign fs env rest (setVar st x (.base (.vstr s)))) := by
  simp only [constAssign, evalExpr, h]

/-- `constAssign` across a failed file read is vacuously true. -/
theorem constAssign_read_err {fs env : String → Option String} {p : String}
    (h : fs p = none) (x : Name) (rest : List Stmt) (st : State) :
    constAssign fs env (.assign x (.readFile p) :: rest) st = true := by
  simp only [constAssign, evalExpr, h]

/-! ### The script with the repeated assignment removed (line 42) -/

/-- `docs/conf.py` with line 42, the second `html_static_path = ['_static']`
assignment, removed — the variant the specification compares against. -/
def conf_py_no42 : List Stmt :=
  [ .assign .project (.lit (.base (.vstr "OpenDXL Java SDK")))
  , .assign .copyright (.lit (.base (.vstr "2019, McAfee LLC")))
  , .assign .VERSION (.readFile "../VERSION")
  , .assign .version (.var .VERSION)
  , .assign .release (.var .VERSION)
  , .assign .needs_sphinx (.lit (.base (.vstr "1.0")))
  , .assign .master_doc (.lit (.base (.vstr "index")))
  , .assign .pygments_style (.lit (.base (.vstr "tango")))
  , .assign .add_function_parentheses (.lit (.base (.vbool true)))
  , .assign .extensions (.lit (.base (.vstrList
      ["sphinx.ext.autodoc", "javasphinx", "sphinxcontrib.plantuml"])))
  , .assign .templates_path (.lit (.base (.vstrList ["_templates"])))
  , .assign .exclude_trees (.lit (.base (.vstrList [".build"])))
  , .assign .source_suffix (.lit (.base (.vstrList [".rst", ".md"])))
  , .assign .source_encoding (.lit (.base (.vstr "utf-8-sig")))
  , .assign .source_parsers (.lit (.vdict [(".md", .vclass "CommonMarkParser")]))
  , .assign .html_theme (.lit (.base (.vstr "sphinx_rtd_theme")))
  , .assign .html_short_title (.lit (.base (.vstr "my-project")))
  , .assign .htmlhelp_basename (.lit (.base (.vstr "my-project-doc")))
  , .assign .html_use_index (.lit (.base (.vbool true)))
  , .assign .html_show_sourcelink (.lit (.base (.vbool false)))
  , .assign .html_static_path (.lit (.base (.vstrList ["_static"])))
  , .assign .plantuml (.getenv "plantuml")
  , .assign .html_context (.lit (.vdict
      [("css_files", .vstrList ["_static/theme_overrides.css"])]))
  ]

/-- Statements 21–24 with the repeated assignment removed. -/
def segG42 : List Stmt :=
  [ .assign .html_static_path (.lit (.base (.vstrList ["_static"])))
  , .assign .plantuml (.getenv "plantuml")
  , .assign .html_context (.lit (.vdict
      [("css_files", .vstrList ["_static/theme_overrides.css"])])) ]

theorem conf_py_no42_eq :
    conf_py_no42 =
      segA ++ (segB ++ (segC ++ (segD ++ (segE ++ (segF ++ segG42))))) := rfl

/-! ### Concrete inputs used by the witnesses -/

/-- A file system in which `../VERSION` holds the text `5.0.0`. -/
def fsSample : String → Option String :=
  fun p => if p = "../VERSION" then some "5.0.0" else none

/-- A file system in which every path holds the text `5.0.0`. -/
def fsConst : String → Option String := fun _ => some "5.0.0"

/-- A file system with no files at all. -/
def fsMissing : String → Option String := fun _ => none

/-- A file system in which `../VERSION` exists but is empty. -/
def fsEmptyVersion : String → Option String :=
  fun p => if p = "../VERSION" then some "" else none

/-- A file system in which `../VERSION` holds text ending in a newline. -/
def fsNewline : String → Option String :=
  fun p => if p = "../VERSION" then some "5.0.0\n" else none

/-- An empty process environment. -/
def envEmpty : String → Option String := fun _ => none

/-- An environment that differs from `envEmpty` everywhere except at
`plantuml`, which is unset. -/
def envOther : String → Option String :=
  fun n => if n = "plantuml" then none else some "x"

/-! ### The claims -/

/-- Claim C1: for every content of the file at path `../VERSION`, the
script reads that file and assigns the resulting string, unchanged, to
`VERSION`, and then to both `version` and `release`. -/
theorem spec_C1 (fs env : String → Option String) (s : String)
    (h : fs "../VERSION" = some s) :
    ∃ st tr, run fs env = (.ok st, tr) ∧
      lookupVar st .VERSION = some (.base (.vstr s)) ∧
      lookupVar st .version = some (.base (.vstr s)) ∧
      lookupVar st .release = some (.base (.vstr s)) :=
  ⟨finalState s (env "plantuml"), [.readFile "../VERSION", .getenv "plantuml"],
    run_ok fs env s h, rfl, rfl, rfl⟩

/-- Witness for C1 at a concrete file system and environment. -/
theorem spec_C1_witness :
    ∃ st tr, run fsSample envEmpty = (.ok st, tr) ∧
      lookupVar st .VERSION = some (.base (.vstr "5.0.0")) ∧
      lookupVar st .version = some (.base (.vstr "5.0.0")) ∧
      lookupVar st .release = some (.base (.vstr "5.0.0")) :=
  spec_C1 fsSample envEmpty "5.0.0" rfl

/-- Claim C2: the script's only failure mode is the version-file read
finding no file; the failure is an unhandled error that terminates
execution right there (nothing runs after the read), and no run that
finds the file fails. -/
theorem spec_C2 (fs env : String → Option String) :
    (fs "../VERSION" = none →
      run fs env =
        (.error (.fileNotFound "../VERSION"), [.readFile "../VERSION"])) ∧
    (∀ er tr, run fs env = (.error er, tr) →
      fs "../VERSION" = none ∧ er = .fileNotFound "../VERSION" ∧
        tr = [.readFile "../VERSION"]) := by
  constructor
  · exact run_err fs env
  · intro er tr h
    cases hf : fs "../VERSION" with
    | some s =>
        rw [run_ok fs env s hf] at h
        exact absurd h (by simp)
    | none =>
        rw [run_err fs env hf] at h
        injection h with h1 h2
        injection h1 with h1
        exact ⟨rfl, h1.symm, h2.symm⟩

/-- Witness for C2 at a concrete file system with no version file. -/
theorem spec_C2_witness :
    run fsMissing envEmpty =
      (.error (.fileNotFound "../VERSION"), [.readFile "../VERSION"]) :=
  (spec_C2 fsMissing envEmpty).1 rfl

/-- Counterexample to claim C3 as stated: with an empty `../VERSION`
file the script runs to completion, and the derived version string is
the empty string. -/
theorem spec_C3_counterexample :
    ∃ st tr, run fsEmptyVersion envEmpty = (.ok st, tr) ∧
      lookupVar st .version = some (.base (.vstr "")) :=
  ⟨finalState "" none, [.readFile "../VERSION", .getenv "plantuml"],
    run_ok fsEmptyVersion envEmpty "" rfl, rfl⟩

/-- Claim C3, amended: the derived version string equals the content of
`../VERSION`, so it is non-empty exactly when that content is
non-empty. -/
theorem spec_C3 (fs env : String → Option String) (s : String)
    (h : fs "../VERSION" = some s) :
    ∃ st tr, run fs env = (.ok st, tr) ∧
      lookupVar st .version = some (.base (.vstr s)) ∧
      (lookupVar st .version ≠ some (.base (.vstr "")) ↔ s ≠ "") := by
  have hv : lookupVar (finalState s (env "plantuml")) .version =
      some (.base (.vstr s)) := rfl
  refine ⟨finalState s (env "plantuml"),
    [.readFile "../VERSION", .getenv "plantuml"], run_ok fs env s h, hv, ?_⟩
  rw [hv]
  simp

/-- Witness for the amended C3 at a concrete file system. -/
theorem spec_C3_witness :
    ∃ st tr, run fsSample envEmpty = (.ok st, tr) ∧
      lookupVar st .version = some (.base (.vstr "5.0.0")) ∧
      (lookupVar st .version ≠ some (.base (.vstr "")) ↔ "5.0.0" ≠ "") :=
  spec_C3 fsSample envEmpty "5.0.0" rfl

/-- Claim C4: whenever the file `../VERSION` exists and is readable,
the configuration script executes to completion without raising any
error. -/
theorem spec_C4 (fs env : String → Option String) (s : String)
    (h : fs "../VERSION" = some s) :
    ∃ st tr, run fs env = (.ok st, tr) :=
  ⟨finalState s (env "plantuml"), [.readFile "../VERSION", .getenv "plantuml"],
    run_ok fs env s h⟩

/-- Witness for C4 at a concrete file system. -/
theorem spec_C4_witness : ∃ st tr, run fsSample envEmpty = (.ok st, tr) :=
  spec_C4 fsSample envEmpty "5.0.0" rfl

/-- Claim C5: every execution performs exactly one file read of
`../VERSION`, followed — when the read succeeds, so that execution
continues — by exactly one environment lookup of `plantuml`, and no
other I/O effect occurs in any execution. -/
theorem spec_C5 (fs env : String → Option String) :
    (run fs env).2 =
      if (fs "../VERSION").isSome
      then [.readFile "../VERSION", .getenv "plantuml"]
      else [.readFile "../VERSION"] := by
  cases hf : fs "../VERSION" with
  | some s =>
      rw [run_ok fs env s hf]
      rfl
  | none =>
      rw [run_err fs env hf]
      rfl

/-- Claim C6: after a completed execution the configuration holds
`html_theme = 'sphinx_rtd_theme'`, the three listed extensions, the
source-suffix list `['.rst', '.md']` with `source_parsers` mapping
`'.md'` to `CommonMarkParser`, and `html_static_path = ['_static']`. -/
theorem spec_C6 (fs env : String → Option String) (st : State)
    (tr : List Effect) (h : run fs env = (.ok st, tr)) :
    lookupVar st .html_theme = some (.base (.vstr "sphinx_rtd_theme")) ∧
    lookupVar st .extensions = some (.base (.vstrList
      ["sphinx.ext.autodoc", "javasphinx", "sphinxcontrib.plantuml"])) ∧
    lookupVar st .source_suffix = some (.base (.vstrList [".rst", ".md"])) ∧
    lookupVar st .source_parsers =
      some (.vdict [(".md", .vclass "CommonMarkParser")]) ∧
    lookupVar st .html_static_path = some (.base (.vstrList ["_static"])) := by
  cases hf : fs "../VERSION" with
  | none =>
      rw [run_err fs env hf] at h
      exact absurd h (by simp)
  | some s =>
      rw [run_ok fs env s hf] at h
      injection h with h1 h2
      injection h1 with h1
      subst h1
      exact ⟨rfl, rfl, rfl, rfl, rfl⟩

/-- Witness for C6 at a concrete file system and environment. -/
theorem spec_C6_witness :
    lookupVar (finalState "5.0.0" none) .html_theme =
      some (.base (.vstr "sphinx_rtd_theme")) ∧
    lookupVar (finalState "5.0.0" none) .extensions = some (.base (.vstrList
      ["sphinx.ext.autodoc", "javasphinx", "sphinxcontrib.plantuml"])) ∧
    lookupVar (finalState "5.0.0" none) .source_suffix =
      some (.base (.vstrList [".rst", ".md"])) ∧
    lookupVar (finalState "5.0.0" none) .source_parsers =
      some (.vdict [(".md", .vclass "CommonMarkParser")]) ∧
    lookupVar (finalState "5.0.0" none) .html_static_path =
      some (.base (.vstrList ["_static"])) :=
  spec_C6 fsSample envEmpty (finalState "5.0.0" none)
    [.readFile "../VERSION", .getenv "plantuml"] rfl

/-- Claim C7: every module-level variable behaves as a constant — along
any execution, each assignment finds its target either unbound or
already bound to an equal value. -/
theorem spec_C7 (fs env : String → Option String) :
    constAssign fs env conf_py [] = true := by
  have hA : runStmts fs env segA [] [] = (.ok st02, []) := rfl
  cases hf : fs "../VERSION" with
  | none =>
      rw [conf_py_eq, constAssign_append hA,
        show segB ++ (segC ++ (segD ++ (segE ++ (segF ++ segG)))) =
          .assign .VERSION (.readFile "../VERSION") ::
            (segC ++ (segD ++ (segE ++ (segF ++ segG)))) from rfl,
        constAssign_read_err hf]
      rfl
  | some s =>
      have hB : runStmts fs env segB st02 [] =
          (.ok (st03 s), [.readFile "../VERSION"]) := by
        rw [show segB = .assign .VERSION (.readFile "../VERSION") :: [] from rfl,
          runStmts_read_ok hf]
        rfl
      have hC : runStmts fs env segC (st03 s) [.readFile "../VERSION"] =
          (.ok (st05 s), [.readFile "../VERSION"]) := rfl
      have hD : runStmts fs env segD (st05 s) [.readFile "../VERSION"] =
          (.ok (st10 s), [.readFile "../VERSION"]) := rfl
      have hE : runStmts fs env segE (st10 s) [.readFile "../VERSION"] =
          (.ok (st15 s), [.readFile "../VERSION"]) := rfl
      have hF : runStmts fs env segF (st15 s) [.readFile "../VERSION"] =
          (.ok (st20 s), [.readFile "../VERSION"]) := rfl
      have cB : constAssign fs env segB st02 = true := by
        rw [show segB = .assign .VERSION (.readFile "../VERSION") :: [] from rfl,
          constAssign_read_ok hf]
        rfl
      rw [conf_py_eq, constAssign_append hA, constAssign_append hB,
        constAssign_append hC, constAssign_append hD, constAssign_append hE,
        constAssign_append hF, cB]
      rfl

/-- Claim C8: after every completed execution, `version` equals
`release`, and both hold the exact raw content of the `../VERSION`
file, with no stripping of whitespace or trailing newline applied. -/
theorem spec_C8 (fs env : String → Option String) (s : String)
    (h : fs "../VERSION" = some s) :
    ∃ st tr, run fs env = (.ok st, tr) ∧
      lookupVar st .version = lookupVar st .release ∧
      lookupVar st .version = some (.base (.vstr s)) :=
  ⟨finalState s (env "plantuml"), [.readFile "../VERSION", .getenv "plantuml"],
    run_ok fs env s h, rfl, rfl⟩

/-- Witness for C8 at a version file whose content ends in a newline,
kept verbatim. -/
theorem spec_C8_witness :
    ∃ st tr, run fsNewline envEmpty = (.ok st, tr) ∧
      lookupVar st .version = lookupVar st .release ∧
      lookupVar st .version = some (.base (.vstr "5.0.0\n")) :=
  spec_C8 fsNewline envEmpty "5.0.0\n" rfl

/-- Claim C9: the script with line 42 (the repeated
`html_static_path = ['_static']`) removed behaves identically: same
result — variable for variable — and same effect trace, on every file
system and environment. -/
theorem spec_C9 (fs env : String → Option String) :
    runStmts fs env conf_py_no42 [] [] = run fs env := by
  have hA : runStmts fs env segA [] [] = (.ok st02, []) := rfl
  cases hf : fs "../VERSION" with
  | some s =>
      have hB : runStmts fs env segB st02 [] =
          (.ok (st03 s), [.readFile "../VERSION"]) := by
        rw [show segB = .assign .VERSION (.readFile "../VERSION") :: [] from rfl,
          runStmts_read_ok hf]
        rfl
      have hC : runStmts fs env segC (st03 s) [.readFile "../VERSION"] =
          (.ok (st05 s), [.readFile "../VERSION"]) := rfl
      have hD : runStmts fs env segD (st05 s) [.readFile "../VERSION"] =
          (.ok (st10 s), [.readFile "../VERSION"]) := rfl
      have hE : runStmts fs env segE (st10 s) [.readFile "../VERSION"] =
          (.ok (st15 s), [.readFile "../VERSION"]) := rfl
      have hF : runStmts fs env segF (st15 s) [.readFile "../VERSION"] =
          (.ok (st20 s), [.readFile "../VERSION"]) := rfl
      have hG42 : runStmts fs env segG42 (st20 s) [.readFile "../VERSION"] =
          (.ok (finalState s (env "plantuml")),
           [.readFile "../VERSION", .getenv "plantuml"]) := rfl
      rw [run_ok fs env s hf, conf_py_no42_eq, runStmts_append_ok hA,
        runStmts_append_ok hB, runStmts_append_ok hC, runStmts_append_ok hD,
        runStmts_append_ok hE, runStmts_append_ok hF]
      exact hG42
  | none =>
      rw [run_err fs env hf, conf_py_no42_eq, runStmts_append_ok hA,
        show segB ++ (segC ++ (segD ++ (segE ++ (segF ++ segG42)))) =
          .assign .VERSION (.readFile "../VERSION") ::
            (segC ++ (segD ++ (segE ++ (segF ++ segG42)))) from rfl,
        runStmts_read_err hf]
      rfl

/-- Claim C10: the final configuration is deterministic in exactly the
two external inputs — the content of `../VERSION` and the value (or
absence) of the environment variable `plantuml`. -/
theorem spec_C10 (fs1 fs2 env1 env2 : String → Option String)
    (hf : fs1 "../VERSION" = fs2 "../VERSION")
    (he : env1 "plantuml" = env2 "plantuml") :
    run fs1 env1 = run fs2 env2 := by
  cases h2 : fs2 "../VERSION" with
  | some s =>
      rw [run_ok fs1 env1 s (hf.trans h2), run_ok fs2 env2 s h2, he]
  | none =>
      rw [run_err fs1 env1 (hf.trans h2), run_err fs2 env2 h2]

/-- Witness for C10: two file systems agreeing on `../VERSION` and two
environments agreeing on `plantuml`, differing elsewhere, give equal
runs. -/
theorem spec_C10_witness : run fsSample envEmpty = run fsConst envOther :=
  spec_C10 fsSample fsConst envEmpty envOther rfl rfl

end ConfPy
